import Mathlib

/-!
Shallow embedding of the library lending system (Tarea-2):
`Socio`/`Prestamo` variants (socio_actualizado.ts), lending policies and the
`Biblioteca` orchestrator (politicas_prestamo.ts), and the universal search
aggregator (sistemas_busqueda.ts).

Modelling conventions, faithful to the source:
- JS `Date` values are milliseconds as `Nat`; `new Date()` (the current time)
  is passed explicitly as a `now : Nat` argument to every time-dependent
  function, and `new Date().getMonth()` as an explicit `mesActual : Nat`.
- JS object identity (`===` on `Libro` and `Prestamo` objects) is modelled by
  a numeric identity field (`lid` on `Libro`, `pid` on `Prestamo`) assigned
  from a fresh counter by the code that constructs the object, so structural
  equality of the embedded values coincides with reference equality.
- Exceptions (`throw new Error(...)`) become `Except ErrorBiblioteca`; the
  runtime TypeError raised by the malformed `instanceof` guard of
  `crearPrestamo` is modelled the same way. In the source every throw happens
  before any mutation, so returning the error with the pre-state models the
  real control flow exactly.
-/

namespace Tarea2

/-- Milliseconds in one hour (JS time arithmetic is in milliseconds). -/
def msPorHora : Nat := 1000 * 60 * 60

/-- Milliseconds in one day: the divisor `1000 * 60 * 60 * 24` used by
`Prestamo.diasVencido` in the source. -/
def msPorDia : Nat := 1000 * 60 * 60 * 24

/-- Libro (class `Libro`): title, author, ISBN. `lid` models JS object
identity: each object created by `Biblioteca.agregarLibro` gets a fresh one. -/
structure Libro where
  lid : Nat
  titulo : String
  autor : String
  isbn : String
deriving Repr, DecidableEq

/-- Enum `TipoPrestamo` from the source. -/
inductive TipoPrestamo
  | regular
  | corto
  | referencia
  | digital
deriving Repr, DecidableEq

/-- Days added to the loan date by each variant constructor:
`PrestamoRegular.DURACION_DIAS = 14`, `PrestamoCorto.DURACION_DIAS = 7`,
`PrestamoReferencia` due the same day, `PrestamoDigital` 100 years out
(`setFullYear(+100)`, modelled as 36500 days; no claim depends on the exact
calendar length of 100 years, only on the value being far in the future). -/
def TipoPrestamo.duracionDias : TipoPrestamo → Nat
  | .regular => 14
  | .corto => 7
  | .referencia => 0
  | .digital => 36500

/-- Prestamo (abstract class `Prestamo` plus its variant tag): book reference,
borrower id, loan timestamp and frozen due date. `pid` models object identity. -/
structure Prestamo where
  pid : Nat
  tipo : TipoPrestamo
  libro : Libro
  socioId : Nat
  fechaPrestamo : Nat
  fechaVencimiento : Nat
deriving Repr, DecidableEq

/-- Variant dispatch of `calcularVencimiento`: due date computed once at
construction from the loan date. -/
def calcularVencimiento (tipo : TipoPrestamo) (fechaPrestamo : Nat) : Nat :=
  fechaPrestamo + tipo.duracionDias * msPorDia

/-- `PrestamoFactory.crearPrestamo`: builds the variant selected by `tipo`;
the constructor records `fechaPrestamo = now` and freezes the due date. -/
def PrestamoFactory.crearPrestamo (tipo : TipoPrestamo) (libro : Libro)
    (socioId : Nat) (now : Nat) (pid : Nat) : Prestamo :=
  { pid := pid, tipo := tipo, libro := libro, socioId := socioId,
    fechaPrestamo := now, fechaVencimiento := calcularVencimiento tipo now }

/-- `Prestamo.estaVencido`: `new Date() > fechaVencimiento` (strict). -/
def Prestamo.estaVencido (p : Prestamo) (now : Nat) : Bool :=
  p.fechaVencimiento < now

/-- `Prestamo.diasVencido`: 0 if not overdue, else
`Math.ceil((now - fechaVencimiento) / (1000*60*60*24))`; on integer
milliseconds with `now > fechaVencimiento` the ceiling is
`(diff + msPorDia - 1) / msPorDia` in integer division. -/
def Prestamo.diasVencido (p : Prestamo) (now : Nat) : Nat :=
  if !(p.estaVencido now) then 0
  else (now - p.fechaVencimiento + msPorDia - 1) / msPorDia

/-- Variant dispatch of `calcularMulta`: Regular `diasVencido * 50`, Corto
`diasVencido * 100`, Referencia and Digital return 0 directly. -/
def Prestamo.calcularMulta (p : Prestamo) (now : Nat) : Nat :=
  match p.tipo with
  | .regular => p.diasVencido now * 50
  | .corto => p.diasVencido now * 100
  | .referencia => 0
  | .digital => 0

/-- `PrestamoReferencia.puedeRetirar` returns `false` (consultation only);
only the Referencia class defines this method. It is dead code: the one call
site, the Referencia guard of `Biblioteca.crearPrestamo`, aborts with a
TypeError before reaching it (see `Biblioteca.crearPrestamo`). -/
def Prestamo.puedeRetirar (p : Prestamo) : Bool :=
  match p.tipo with
  | .referencia => false
  | _ => true

/-- Enum `TipoSocio` from the source. -/
inductive TipoSocio
  | regular
  | vip
  | empleado
  | visitante
deriving Repr, DecidableEq

/-- Socio (abstract class `Socio` plus its variant tag) with its owned,
ordered loan collection `prestamos`. -/
structure Socio where
  tipo : TipoSocio
  id : Nat
  nombre : String
  apellido : String
  prestamos : List Prestamo
deriving Repr, DecidableEq

/-- Variant dispatch of `getDuracionPrestamo`: Regular 14, VIP 21,
Empleado 30, Visitante 0. -/
def Socio.getDuracionPrestamo (s : Socio) : Nat :=
  match s.tipo with
  | .regular => 14
  | .vip => 21
  | .empleado => 30
  | .visitante => 0

/-- Variant dispatch of `getMaximoLibros`: Regular 3, VIP 5, Empleado
`Infinity` (modelled as `none` = unbounded), Visitante 0. -/
def Socio.getMaximoLibros (s : Socio) : Option Nat :=
  match s.tipo with
  | .regular => some 3
  | .vip => some 5
  | .empleado => none
  | .visitante => some 0

/-- `Socio.agregarPrestamo`: push onto the owned collection. -/
def Socio.agregarPrestamo (s : Socio) (p : Prestamo) : Socio :=
  { s with prestamos := s.prestamos ++ [p] }

/-- `Socio.removerPrestamo`: `indexOf` + `splice(indice, 1)` removes the first
occurrence of the object (reference equality, modelled by `pid`); a no-op when
the loan is not present. -/
def Socio.removerPrestamo (s : Socio) (p : Prestamo) : Socio :=
  { s with prestamos := s.prestamos.eraseP (fun q => q.pid == p.pid) }

/-- `Socio.tienePrestadoLibro`: first owned loan whose `libro` is the given
object (`p.libro === libro`). -/
def Socio.tienePrestadoLibro (s : Socio) (libro : Libro) : Option Prestamo :=
  s.prestamos.find? (fun p => p.libro == libro)

/-- Getter `librosEnPrestamo`: size of the owned collection. -/
def Socio.librosEnPrestamo (s : Socio) : Nat :=
  s.prestamos.length

/-- `Socio.puedeRetirar`: base class compares `prestamos.length <
getMaximoLibros()` (always true for Empleado whose maximum is `Infinity`);
the Visitante subclass overrides it to return `false`. The `libro` parameter
is unused, as in the source. -/
def Socio.puedeRetirar (s : Socio) (libro : Libro) : Bool :=
  match s.tipo with
  | .visitante => false
  | _ =>
    match s.getMaximoLibros with
    | none => true
    | some m => s.prestamos.length < m

/-- `Socio.tieneLibrosVencidos`: some owned loan is overdue. -/
def Socio.tieneLibrosVencidos (s : Socio) (now : Nat) : Bool :=
  s.prestamos.any (fun p => p.estaVencido now)

/-- `Socio.getLibrosVencidos`: overdue owned loans in insertion order. -/
def Socio.getLibrosVencidos (s : Socio) (now : Nat) : List Prestamo :=
  s.prestamos.filter (fun p => p.estaVencido now)

/-- `Socio.getMultaTotal`: base class reduces the owned loans summing
`calcularMulta`; the SocioVIP subclass overrides it to return 0. -/
def Socio.getMultaTotal (s : Socio) (now : Nat) : Nat :=
  match s.tipo with
  | .vip => 0
  | _ => s.prestamos.foldl (fun total p => total + p.calcularMulta now) 0

/-- `SocioFactory.crearSocio`: a fresh member starts with no loans. -/
def SocioFactory.crearSocio (tipo : TipoSocio) (id : Nat)
    (nombre apellido : String) : Socio :=
  { tipo := tipo, id := id, nombre := nombre, apellido := apellido,
    prestamos := [] }

/-- Enum `TipoPolitica`; the stateless strategy objects are identified by
their tag. -/
inductive TipoPolitica
  | estricta
  | flexible
  | estudiante
  | docente
deriving Repr, DecidableEq

/-- `PoliticaEstudiante.MESES_EXAMENES = [5, 6, 11, 12]` (the source comment
reads "Junio, Julio, Diciembre, Enero"). -/
def MESES_EXAMENES : List Nat := [5, 6, 11, 12]

/-- `PoliticaDocente.contarRenovaciones`: the source returns 0
unconditionally (no renewal tracking). -/
def contarRenovaciones (p : Prestamo) : Nat := 0

/-- Policy method `puedeRetirar`: Estricta denies a member holding overdue
loans; Flexible, Estudiante and Docente always allow. The `libro` parameter is
unused by every variant, as in the source. -/
def TipoPolitica.puedeRetirar (pol : TipoPolitica) (s : Socio) (libro : Libro)
    (now : Nat) : Bool :=
  match pol with
  | .estricta => !(s.tieneLibrosVencidos now)
  | .flexible => true
  | .estudiante => true
  | .docente => true

/-- Policy method `calcularDuracion`: Estricta returns the base; Flexible
halves it (`Math.floor(base / 2)`) for a member with overdue loans; Estudiante
doubles it when the current month index is in `MESES_EXAMENES`; Docente
returns the fixed `DURACION_EXTENDIDA = 60` ignoring the base. -/
def TipoPolitica.calcularDuracion (pol : TipoPolitica) (s : Socio)
    (duracionBase : Nat) (now mesActual : Nat) : Nat :=
  match pol with
  | .estricta => duracionBase
  | .flexible =>
    if s.tieneLibrosVencidos now then duracionBase / 2 else duracionBase
  | .estudiante =>
    if MESES_EXAMENES.contains mesActual then duracionBase * 2
    else duracionBase
  | .docente => 60

/-- Policy method `permiteRenovacion`: Estricta requires no overdue loans and
this loan not overdue; Flexible requires `diasVencido <= 7`; Estudiante always
allows during exam months and otherwise requires the loan not overdue; Docente
compares the (always 0) renewal count with `MAX_RENOVACIONES = 5`. -/
def TipoPolitica.permiteRenovacion (pol : TipoPolitica) (s : Socio)
    (p : Prestamo) (now mesActual : Nat) : Bool :=
  match pol with
  | .estricta => !(s.tieneLibrosVencidos now) && !(p.estaVencido now)
  | .flexible => decide (p.diasVencido now ≤ 7)
  | .estudiante =>
    if MESES_EXAMENES.contains mesActual then true
    else !(p.estaVencido now)
  | .docente => decide (contarRenovaciones p < 5)

/-- Errors raised by `Biblioteca`: one constructor per distinct
`throw new Error` message — the spec names them NotFound, Unavailable,
PolicyDenied, NotWithdrawable and NotBorrowed — plus `typeError` for the
runtime TypeError raised by the malformed `instanceof` in the Referencia
guard of `crearPrestamo` (not a designed error; it makes the designed
`soloConsultaEnBiblioteca` throw unreachable). -/
inductive ErrorBiblioteca
  | socioOLibroNoEncontrado
  | libroNoDisponible
  | politicaNoPermite
  | soloConsultaEnBiblioteca
  | libroNoPrestado
  | typeError
deriving Repr, DecidableEq

deriving instance DecidableEq for Except

/-- Biblioteca state: inventory, members, library-wide active-loan list and
the single active policy. `nextLid`/`nextPid` are the identity counters
modelling allocation of fresh JS objects. The search subsystems live outside
this structure (see `BuscadorUniversal` below). -/
structure Biblioteca where
  inventario : List Libro
  socios : List Socio
  prestamosActivos : List Prestamo
  politicaActual : TipoPolitica
  nextLid : Nat
  nextPid : Nat
deriving Repr, DecidableEq

/-- The `Biblioteca` constructor: empty collections, default policy
`FLEXIBLE`. -/
def Biblioteca.inicial : Biblioteca :=
  { inventario := [], socios := [], prestamosActivos := [],
    politicaActual := .flexible, nextLid := 0, nextPid := 0 }

/-- `Biblioteca.cambiarPolitica`: replace the active policy. -/
def Biblioteca.cambiarPolitica (b : Biblioteca) (t : TipoPolitica) :
    Biblioteca :=
  { b with politicaActual := t }

/-- `Biblioteca.agregarLibro`: push a freshly constructed `Libro`. -/
def Biblioteca.agregarLibro (b : Biblioteca) (titulo autor isbn : String) :
    Biblioteca :=
  { b with
    inventario := b.inventario ++ [⟨b.nextLid, titulo, autor, isbn⟩],
    nextLid := b.nextLid + 1 }

/-- `Biblioteca.buscarLibro`: first inventory book with the given ISBN. -/
def Biblioteca.buscarLibro (b : Biblioteca) (isbn : String) : Option Libro :=
  b.inventario.find? (fun l => l.isbn == isbn)

/-- `Biblioteca.registrarSocio`: push the member built by the factory. -/
def Biblioteca.registrarSocio (b : Biblioteca) (tipo : TipoSocio) (id : Nat)
    (nombre apellido : String) : Biblioteca :=
  { b with socios := b.socios ++ [SocioFactory.crearSocio tipo id nombre apellido] }

/-- `Biblioteca.buscarSocio`: first member with the given id. -/
def Biblioteca.buscarSocio (b : Biblioteca) (id : Nat) : Option Socio :=
  b.socios.find? (fun s => s.id == id)

/-- `Biblioteca.estaLibroPrestado`: some active loan references this very
book object. -/
def Biblioteca.estaLibroPrestado (b : Biblioteca) (libro : Libro) : Bool :=
  b.prestamosActivos.any (fun p => p.libro == libro)

/-- Mutation of the member object found by `buscarSocio`: in JS the object in
the list is updated in place; here the first list entry with that id is
replaced by its update. -/
def actualizarPrimerSocio (socios : List Socio) (sid : Nat)
    (f : Socio → Socio) : List Socio :=
  match socios with
  | [] => []
  | s :: rest =>
    if s.id == sid then f s :: rest
    else s :: actualizarPrimerSocio rest sid f

/-- `Biblioteca.crearPrestamo`: resolve member and book (NotFound), check
availability (Unavailable), ask the active policy (PolicyDenied), build the
loan via the factory, then run the Referencia guard
`tipoPrestamo === REFERENCIA && prestamo instanceof
import("./Prestamo").PrestamoReferencia`. That `&&` short-circuits: for every
other kind the left operand is false and the block is skipped; for the
Reference kind evaluating the right operand applies `instanceof` to the
`PrestamoReferencia` property of a Promise, which is undefined, so the call
aborts with a TypeError — the inner `!prestamo.puedeRetirar()`
NotWithdrawable throw is unreachable. On the surviving path the loan is
pushed onto both `prestamosActivos` and the member collection. -/
def Biblioteca.crearPrestamo (b : Biblioteca) (socioId : Nat)
    (libroISBN : String) (tipoPrestamo : TipoPrestamo) (now : Nat) :
    Except ErrorBiblioteca Biblioteca :=
  match b.buscarSocio socioId, b.buscarLibro libroISBN with
  | some socio, some libro =>
    if b.estaLibroPrestado libro then .error .libroNoDisponible
    else if !(b.politicaActual.puedeRetirar socio libro now) then
      .error .politicaNoPermite
    else
      let prestamo := PrestamoFactory.crearPrestamo tipoPrestamo libro socioId
        now b.nextPid
      if tipoPrestamo == .referencia then .error .typeError
      else .ok { b with
        prestamosActivos := b.prestamosActivos ++ [prestamo],
        socios := actualizarPrimerSocio b.socios socioId
          (fun s => s.agregarPrestamo prestamo),
        nextPid := b.nextPid + 1 }
  | _, _ => .error .socioOLibroNoEncontrado

/-- `Biblioteca.devolverLibro`: resolve member and book (NotFound), find the
member loan for that book (NotBorrowed), compute the fine only for console
visibility (no state effect), then remove the loan from the member collection
and (by `indexOf`/`splice`, a no-op if absent) from `prestamosActivos`. -/
def Biblioteca.devolverLibro (b : Biblioteca) (socioId : Nat)
    (libroISBN : String) (now : Nat) : Except ErrorBiblioteca Biblioteca :=
  match b.buscarSocio socioId, b.buscarLibro libroISBN with
  | some socio, some libro =>
    match socio.tienePrestadoLibro libro with
    | none => .error .libroNoPrestado
    | some prestamo =>
      .ok { b with
        socios := actualizarPrimerSocio b.socios socioId
          (fun s => s.removerPrestamo prestamo),
        prestamosActivos :=
          b.prestamosActivos.eraseP (fun q => q.pid == prestamo.pid) }
  | _, _ => .error .socioOLibroNoEncontrado

/-- `Biblioteca.renovarPrestamo`: resolve member, book and loan (NotFound /
NotBorrowed), ask the active policy (PolicyDenied); on success the source only
computes `nuevaDuracion` and `nuevoVencimiento` and logs them — nothing is
persisted, so the state is returned unchanged. -/
def Biblioteca.renovarPrestamo (b : Biblioteca) (socioId : Nat)
    (libroISBN : String) (now mesActual : Nat) :
    Except ErrorBiblioteca Biblioteca :=
  match b.buscarSocio socioId, b.buscarLibro libroISBN with
  | some socio, some libro =>
    match socio.tienePrestadoLibro libro with
    | none => .error .libroNoPrestado
    | some prestamo =>
      if !(b.politicaActual.permiteRenovacion socio prestamo now mesActual)
      then .error .politicaNoPermite
      else .ok b
  | _, _ => .error .socioOLibroNoEncontrado

/-- All loans held in the member collections, in member order
(`socios.flatMap(s => s.prestamos)`). -/
def prestamosDeSocios (b : Biblioteca) : List Prestamo :=
  b.socios.flatMap Socio.prestamos

/-- One externally visible operation on the Biblioteca, with the clock
readings each one performs passed explicitly. -/
inductive Op
  | agregarLibro (titulo autor isbn : String)
  | registrarSocio (tipo : TipoSocio) (id : Nat) (nombre apellido : String)
  | cambiarPolitica (t : TipoPolitica)
  | crearPrestamo (socioId : Nat) (isbn : String) (tipo : TipoPrestamo)
      (now : Nat)
  | devolverLibro (socioId : Nat) (isbn : String) (now : Nat)
  | renovarPrestamo (socioId : Nat) (isbn : String) (now mes : Nat)
deriving Repr, DecidableEq

/-- Run one operation; a thrown error leaves the state as it was (in the
source every throw happens before any mutation). -/
def aplicarOp (b : Biblioteca) : Op → Biblioteca
  | .agregarLibro t a i => b.agregarLibro t a i
  | .registrarSocio tp id n a => b.registrarSocio tp id n a
  | .cambiarPolitica t => b.cambiarPolitica t
  | .crearPrestamo sid isbn tp now =>
    match b.crearPrestamo sid isbn tp now with
    | .ok b2 => b2
    | .error _ => b
  | .devolverLibro sid isbn now =>
    match b.devolverLibro sid isbn now with
    | .ok b2 => b2
    | .error _ => b
  | .renovarPrestamo sid isbn now mes =>
    match b.renovarPrestamo sid isbn now mes with
    | .ok b2 => b2
    | .error _ => b

/-- Run a sequence of operations from the freshly constructed library. -/
def ejecutar (ops : List Op) : Biblioteca :=
  ops.foldl aplicarOp Biblioteca.inicial

/-- Synchronization invariant between the member collections and the
library-wide active-loan collection: loan identities are unique, the two
collections hold the same loans (up to order), and every held identity was
allocated by the counter. -/
def InvarianteSync (b : Biblioteca) : Prop :=
  (b.prestamosActivos.map Prestamo.pid).Nodup ∧
  (prestamosDeSocios b).Perm b.prestamosActivos ∧
  (∀ p ∈ b.prestamosActivos, p.pid < b.nextPid)

instance (b : Biblioteca) : Decidable (InvarianteSync b) := by
  unfold InvarianteSync
  infer_instance

/-- Kind of a digital resource (`'pdf' | 'video' | 'audio' | 'articulo'`). -/
inductive TipoRecurso
  | pdf
  | video
  | audio
  | articulo
deriving Repr, DecidableEq

/-- Class `RecursoDigital` (sistemas_busqueda.ts). -/
structure RecursoDigital where
  titulo : String
  url : String
  tipo : TipoRecurso
  fechaPublicacion : Nat
deriving Repr, DecidableEq

/-- Condition of a historical document (`'bueno' | 'regular' |
'deteriorado'`). -/
inductive EstadoDocumento
  | bueno
  | regular
  | deteriorado
deriving Repr, DecidableEq

/-- Class `DocumentoHistorico` (sistemas_busqueda.ts). -/
structure DocumentoHistorico where
  titulo : String
  fechaCreacion : Nat
  autor : String
  categoria : String
  estado : EstadoDocumento
deriving Repr, DecidableEq

/-- Class `ArticuloAcademico` (sistemas_busqueda.ts); `resumen` is the field
the source calls abstract. -/
structure ArticuloAcademico where
  titulo : String
  autores : List String
  revista : String
  anio : Nat
  palabrasClave : List String
  resumen : String
deriving Repr, DecidableEq

/-- One item returned by a search collaborator. The source types them `any[]`;
the `otro` case covers items of none of the four known classes. -/
inductive Resultado
  | libro (l : Libro)
  | recurso (r : RecursoDigital)
  | documento (d : DocumentoHistorico)
  | articulo (a : ArticuloAcademico)
  | otro
deriving Repr, DecidableEq

/-- `BuscadorUniversal.obtenerTipoResultado`: the `instanceof` chain mapping
each item to its coarse type label. -/
def obtenerTipoResultado : Resultado → String
  | .libro _ => "Libro"
  | .recurso _ => "Recurso Digital"
  | .documento _ => "Documento Histórico"
  | .articulo _ => "Artículo Académico"
  | .otro => "Desconocido"

/-- Interface `ResultadoBusqueda`: a result tagged with its coarse type label
and the name of the source system. -/
structure ResultadoBusqueda where
  tipo : String
  resultado : Resultado
  fuente : String
deriving Repr, DecidableEq

/-- An `IBuscable` collaborator as the aggregator sees it: `buscarPor` may
return results or throw (the error message is the `String`). -/
abbrev ISistema : Type := String → Except String (List Resultado)

/-- `BuscadorUniversal.sistemas`: a `Map` from system name to collaborator;
iteration order is insertion order, so an association list. -/
abbrev BuscadorUniversal : Type := List (String × ISistema)

/-- `BuscadorUniversal.agregarSistema`: `Map.set` — replace in place when the
name is present, else append. -/
def agregarSistema (bu : BuscadorUniversal) (nombre : String)
    (sistema : ISistema) : BuscadorUniversal :=
  if bu.any (fun e => e.1 == nombre) then
    bu.map (fun e => if e.1 == nombre then (nombre, sistema) else e)
  else bu ++ [(nombre, sistema)]

/-- Tag every result of one collaborator with its type label and source
name (the loop body of `buscarEnTodos`). -/
def etiquetar (nombre : String) (rs : List Resultado) :
    List ResultadoBusqueda :=
  rs.map (fun r =>
    { tipo := obtenerTipoResultado r, resultado := r, fuente := nombre })

/-- `BuscadorUniversal.buscarEnTodos`: for each registered system in order,
tag and collect its results; a system whose `buscarPor` throws is caught
(`console.warn`) and contributes nothing. -/
def buscarEnTodos (bu : BuscadorUniversal) (criterio : String) :
    List ResultadoBusqueda :=
  bu.flatMap (fun e =>
    match e.2 criterio with
    | .ok rs => etiquetar e.1 rs
    | .error _ => [])

/-- `BuscadorUniversal.buscarEnSistema`: delegate to the named system,
NotFound when it is not registered; an error thrown by the system itself
propagates. -/
def buscarEnSistema (bu : BuscadorUniversal) (nombreSistema criterio : String) :
    Except String (List Resultado) :=
  match bu.find? (fun e => e.1 == nombreSistema) with
  | none => .error "Sistema no encontrado"
  | some e => e.2 criterio

/-- Concrete book used by several witness scenarios. -/
def libroW : Libro := ⟨0, "T", "A", "i"⟩

/-- Concrete Regular loan on `libroW` held by member 1, created at time 0. -/
def prestamoW : Prestamo := ⟨0, .regular, libroW, 1, 0, 14 * msPorDia⟩

/-- Concrete library state: one book, one Regular member holding the one
active loan, Flexible policy. -/
def bC3w : Biblioteca :=
  { inventario := [libroW],
    socios := [⟨.regular, 1, "N", "A", [prestamoW]⟩],
    prestamosActivos := [prestamoW],
    politicaActual := .flexible, nextLid := 1, nextPid := 1 }

/-- First book of the C4 scenario (the one that becomes overdue). -/
def libroC4a : Libro := ⟨0, "L1", "A", "i1"⟩

/-- Second, still available book of the C4 scenario. -/
def libroC4b : Libro := ⟨1, "L2", "A", "i2"⟩

/-- The Regular loan of the C4 scenario, created at time 0 and so due at
day 14. -/
def prestamoC4 : Prestamo := ⟨0, .regular, libroC4a, 1, 0, 14 * msPorDia⟩

/-- The member of the C4 scenario, holding the single overdue loan. -/
def socioC4 : Socio := ⟨.regular, 1, "N", "A", [prestamoC4]⟩

/-- C4 scenario state, built by running the public operations: two books, one
Regular member, one loan on the first book created at time 0. -/
def bC4 : Biblioteca :=
  ejecutar [.agregarLibro "L1" "A" "i1", .agregarLibro "L2" "A" "i2",
    .registrarSocio .regular 1 "N" "A", .crearPrestamo 1 "i1" .regular 0]

/-- A search collaborator answering with one book. -/
def sisCatalogoW : ISistema := fun _ => .ok [.libro libroW]

/-- A sample academic article. -/
def articuloW : ArticuloAcademico := ⟨"T2", ["Tolkien"], "R", 1954, [], "r"⟩

/-- A search collaborator answering with one academic article. -/
def sisBaseW : ISistema := fun _ => .ok [.articulo articuloW]

/-- A search collaborator whose `buscarPor` always throws. -/
def sisFallaW : ISistema := fun _ => .error "falla"

/-- C5 scenario base state: one book, one Regular member, no loans. -/
def bC5a : Biblioteca :=
  ejecutar [.agregarLibro "T" "A" "i", .registrarSocio .regular 1 "N" "A"]

/-- C5 scenario after the successful `crearPrestamo`. -/
def bC5b : Biblioteca := aplicarOp bC5a (.crearPrestamo 1 "i" .regular 0)

/-- C5 scenario after the subsequent successful `devolverLibro`. -/
def bC5c : Biblioteca := aplicarOp bC5b (.devolverLibro 1 "i" 0)

/-- The state after returning the only loan of `bC3w`. -/
def bC6w : Biblioteca := aplicarOp bC3w (.devolverLibro 1 "i" 0)

/-! Helper lemmas shared by several developments. -/

/-- Erasing by a predicate satisfied by at most one element (up to equality)
commutes with permutation. -/
theorem permErasePUnico {α : Type} (P : α → Bool) :
    ∀ {l₁ l₂ : List α}, l₁.Perm l₂ →
    (∀ a ∈ l₁, ∀ b ∈ l₁, P a = true → P b = true → a = b) →
    (l₁.eraseP P).Perm (l₂.eraseP P) := by
  intro l₁ l₂ h
  induction h with
  | nil => intro _; simp
  | cons x h ih =>
    intro hu
    by_cases hx : P x = true
    · simpa [List.eraseP_cons_of_pos hx] using h
    · simp only [List.eraseP_cons_of_neg hx]
      exact (ih fun a ha b hb => hu a (by simp [ha]) b (by simp [hb])).cons x
  | swap x y l =>
    intro hu
    by_cases hx : P x = true <;> by_cases hy : P y = true
    · have hxy : x = y := hu x (by simp) y (by simp) hx hy
      subst hxy
      simp [List.eraseP_cons_of_pos hx]
    · simp [List.eraseP_cons_of_neg hy, List.eraseP_cons_of_pos hx]
    · simp [List.eraseP_cons_of_neg hx, List.eraseP_cons_of_pos hy]
    · simp only [List.eraseP_cons_of_neg hx, List.eraseP_cons_of_neg hy]
      exact List.Perm.swap x y _
  | trans h1 h2 ih1 ih2 =>
    intro hu
    exact (ih1 hu).trans (ih2 fun a ha b hb =>
      hu a (h1.mem_iff.mpr ha) b (h1.mem_iff.mpr hb))

/-- Appending a loan to the member found by id inserts it, up to order, into
the concatenation of all member collections. -/
theorem flatMap_actualizar_agregar (socios : List Socio) (sid : Nat)
    (p : Prestamo)
    (h : (socios.find? (fun s => s.id == sid)).isSome) :
    ((actualizarPrimerSocio socios sid
        (fun s => s.agregarPrestamo p)).flatMap Socio.prestamos).Perm
      (p :: socios.flatMap Socio.prestamos) := by
  induction socios with
  | nil => simp at h
  | cons s rest ih =>
    by_cases hid : (s.id == sid) = true
    · simp only [actualizarPrimerSocio, hid, if_true, List.flatMap_cons,
        Socio.agregarPrestamo, List.append_assoc, List.singleton_append]
      exact List.perm_middle
    · rw [List.find?_cons_of_neg (p := fun (t : Socio) => t.id == sid) _ hid] at h
      simp only [actualizarPrimerSocio, hid, if_false, List.flatMap_cons]
      exact ((ih h).append_left s.prestamos).trans List.perm_middle

/-- Removing a loan held by the member found by id removes, when loan
identities are globally unique, exactly its first occurrence from the
concatenation of all member collections. -/
theorem flatMap_actualizar_remover (socios : List Socio) (sid : Nat)
    (p : Prestamo) (s0 : Socio)
    (hfind : socios.find? (fun s => s.id == sid) = some s0)
    (hk : ∃ q ∈ s0.prestamos, q.pid = p.pid)
    (hnd : ((socios.flatMap Socio.prestamos).map Prestamo.pid).Nodup) :
    (actualizarPrimerSocio socios sid
        (fun s => s.removerPrestamo p)).flatMap Socio.prestamos
      = (socios.flatMap Socio.prestamos).eraseP
          (fun q => q.pid == p.pid) := by
  induction socios with
  | nil => cases hfind
  | cons s rest ih =>
    by_cases hid : (s.id == sid) = true
    · rw [List.find?_cons_of_pos (p := fun (t : Socio) => t.id == sid) _ hid] at hfind
      injection hfind with hs0
      subst hs0
      obtain ⟨q, hq, hqp⟩ := hk
      simp only [actualizarPrimerSocio, hid, if_true, List.flatMap_cons,
        Socio.removerPrestamo]
      rw [List.eraseP_append_left (a := q) (by simp [hqp]) _ hq]
    · rw [List.find?_cons_of_neg (p := fun (t : Socio) => t.id == sid) _ hid] at hfind
      simp only [List.flatMap_cons, List.map_append, List.nodup_append]
        at hnd
      obtain ⟨hnd1, hnd2, hdisj⟩ := hnd
      simp only [actualizarPrimerSocio, hid, Bool.false_eq_true, if_false,
        List.flatMap_cons]
      rw [ih hfind hnd2]
      rw [List.eraseP_append_right]
      intro q hq hPq
      have hqp : q.pid = p.pid := by simpa using hPq
      obtain ⟨q0, hq0, hq0p⟩ := hk
      have hq0mem : q0 ∈ rest.flatMap Socio.prestamos :=
        List.mem_flatMap.mpr ⟨s0, List.mem_of_find?_eq_some hfind, hq0⟩
      have h2 : q.pid ∈ List.map Prestamo.pid (rest.flatMap Socio.prestamos) := by
        rw [show q.pid = q0.pid from by omega]
        exact List.mem_map_of_mem Prestamo.pid hq0mem
      exact hdisj (List.mem_map_of_mem Prestamo.pid hq) h2

/-- Updating the member found by id with an id-preserving function commutes
with the member lookup. -/
theorem find_actualizar (socios : List Socio) (sid : Nat) (f : Socio → Socio)
    (hidf : ∀ s, (f s).id = s.id) :
    (actualizarPrimerSocio socios sid f).find? (fun s => s.id == sid)
      = (socios.find? (fun s => s.id == sid)).map f := by
  induction socios with
  | nil => simp [actualizarPrimerSocio]
  | cons s rest ih =>
    by_cases hid : (s.id == sid) = true
    · have hid2 : s.id = sid := by simpa using hid
      simp only [actualizarPrimerSocio, hid, if_true]
      rw [List.find?_cons_of_pos (p := fun (t : Socio) => t.id == sid) _
          (by simp [hidf, hid2]),
        List.find?_cons_of_pos (p := fun (t : Socio) => t.id == sid) _ hid]
      rfl
    · simp only [actualizarPrimerSocio, hid, Bool.false_eq_true, if_false]
      rw [List.find?_cons_of_neg (p := fun (t : Socio) => t.id == sid) _ hid,
        List.find?_cons_of_neg (p := fun (t : Socio) => t.id == sid) _ hid, ih]

/-- Two successive updates of the member found by id compose, when the first
update preserves the id. -/
theorem actualizar_actualizar (socios : List Socio) (sid : Nat)
    (f g : Socio → Socio) (hidf : ∀ s, (f s).id = s.id) :
    actualizarPrimerSocio (actualizarPrimerSocio socios sid f) sid g
      = actualizarPrimerSocio socios sid (fun s => g (f s)) := by
  induction socios with
  | nil => simp [actualizarPrimerSocio]
  | cons s rest ih =>
    by_cases hid : (s.id == sid) = true
    · have hid2 : s.id = sid := by simpa using hid
      simp [actualizarPrimerSocio, hid, hidf, hid2]
    · simp [actualizarPrimerSocio, hid, ih]

/-- Updating the member found by id with a function that fixes it is the
identity. -/
theorem actualizar_fijo (socios : List Socio) (sid : Nat) (h : Socio → Socio)
    (s0 : Socio) (hfind : socios.find? (fun s => s.id == sid) = some s0)
    (hfix : h s0 = s0) :
    actualizarPrimerSocio socios sid h = socios := by
  induction socios with
  | nil => cases hfind
  | cons s rest ih =>
    by_cases hid : (s.id == sid) = true
    · rw [List.find?_cons_of_pos (p := fun (t : Socio) => t.id == sid) _ hid] at hfind
      injection hfind with hs0
      subst hs0
      simp [actualizarPrimerSocio, hid, hfix]
    · rw [List.find?_cons_of_neg (p := fun (t : Socio) => t.id == sid) _ hid] at hfind
      simp [actualizarPrimerSocio, hid, ih hfind]

/-- Closed form of `diasVencido` as an if over the overdue test. -/
theorem diasVencido_eq (p : Prestamo) (now : Nat) :
    p.diasVencido now =
      if p.fechaVencimiento < now then
        (now - p.fechaVencimiento + msPorDia - 1) / msPorDia
      else 0 := by
  simp only [Prestamo.diasVencido, Prestamo.estaVencido]
  by_cases h : p.fechaVencimiento < now <;> simp [h]

/-- C7: `daysOverdue` is 0 when `now <= dueDate`; otherwise it is the ceiling
of the elapsed time past the due date measured in days (the unique `d` with
`(d-1)·day < now - dueDate ≤ d·day`), so 25 hours past due gives 2 and 1 hour
past due gives 1. -/
theorem C7_diasVencido_techo (p : Prestamo) (now : Nat) :
    (now ≤ p.fechaVencimiento → p.diasVencido now = 0) ∧
    (p.fechaVencimiento < now →
      msPorDia * (p.diasVencido now - 1) < now - p.fechaVencimiento ∧
      now - p.fechaVencimiento ≤ msPorDia * p.diasVencido now) ∧
    (now = p.fechaVencimiento + 25 * msPorHora → p.diasVencido now = 2) ∧
    (now = p.fechaVencimiento + msPorHora → p.diasVencido now = 1) := by
  rw [diasVencido_eq]
  simp only [msPorDia, msPorHora]
  refine ⟨fun h => ?_, fun h => ?_, fun h => ?_, fun h => ?_⟩
  · rw [if_neg (by omega)]
  · rw [if_pos h]
    omega
  · rw [if_pos (by omega)]
    omega
  · rw [if_pos (by omega)]
    omega

/-- Witness for C7 at a concrete loan: due date 0, now 25 hours later. -/
theorem C7_diasVencido_techo_witness :
    Prestamo.diasVencido
      ⟨0, .referencia, ⟨0, "T", "A", "i"⟩, 1, 0, 0⟩ (25 * msPorHora) = 2 :=
  (C7_diasVencido_techo ⟨0, .referencia, ⟨0, "T", "A", "i"⟩, 1, 0, 0⟩
    (25 * msPorHora)).2.2.1 rfl

/-- C8: the SocioVIP override makes `getMultaTotal` 0 for every VIP member,
whatever loans the member holds. -/
theorem C8_vip_multa_cero (s : Socio) (now : Nat) (h : s.tipo = .vip) :
    s.getMultaTotal now = 0 := by
  simp [Socio.getMultaTotal, h]

/-- Witness for C8: a VIP member holding a Regular loan 6 days overdue; the
underlying loan reports a fine of 300, the member total is still 0. -/
theorem C8_vip_multa_cero_witness :
    Prestamo.calcularMulta
      ⟨0, .regular, ⟨0, "T", "A", "i"⟩, 1, 0, 14 * msPorDia⟩
      (20 * msPorDia) = 300 ∧
    Socio.getMultaTotal
      ⟨.vip, 1, "N", "A",
        [⟨0, .regular, ⟨0, "T", "A", "i"⟩, 1, 0, 14 * msPorDia⟩]⟩
      (20 * msPorDia) = 0 :=
  ⟨by decide,
    C8_vip_multa_cero
      ⟨.vip, 1, "N", "A",
        [⟨0, .regular, ⟨0, "T", "A", "i"⟩, 1, 0, 14 * msPorDia⟩]⟩
      (20 * msPorDia) rfl⟩

/-- C10: over the reachable month indices 0..11, membership in
`MESES_EXAMENES` is exactly month 5, 6 or 11 (June, July, December), so the
Student policy doubles the duration and renews unconditionally exactly in
those months; the listed entry 12 never matches a real month, and January
(index 0) is not an exam month despite the source comment. -/
theorem C10_meses_examenes (mes : Nat) (h : mes < 12) :
    (MESES_EXAMENES.contains mes = true ↔ (mes = 5 ∨ mes = 6 ∨ mes = 11)) ∧
    (∀ s base now,
      TipoPolitica.calcularDuracion .estudiante s base now mes =
        if mes = 5 ∨ mes = 6 ∨ mes = 11 then base * 2 else base) ∧
    (∀ s p now,
      TipoPolitica.permiteRenovacion .estudiante s p now mes =
        if mes = 5 ∨ mes = 6 ∨ mes = 11 then true else !(p.estaVencido now)) ∧
    MESES_EXAMENES.contains 12 = true ∧
    MESES_EXAMENES.contains 0 = false := by
  interval_cases mes <;>
    simp [MESES_EXAMENES, TipoPolitica.calcularDuracion,
      TipoPolitica.permiteRenovacion]

/-- Witness for C10 at month index 5 (June). -/
theorem C10_meses_examenes_witness :
    (MESES_EXAMENES.contains 5 = true ↔ (5 = 5 ∨ 5 = 6 ∨ 5 = 11)) ∧
    (∀ s base now,
      TipoPolitica.calcularDuracion .estudiante s base now 5 =
        if 5 = 5 ∨ 5 = 6 ∨ 5 = 11 then base * 2 else base) ∧
    (∀ s p now,
      TipoPolitica.permiteRenovacion .estudiante s p now 5 =
        if 5 = 5 ∨ 5 = 6 ∨ 5 = 11 then true else !(p.estaVencido now)) ∧
    MESES_EXAMENES.contains 12 = true ∧
    MESES_EXAMENES.contains 0 = false :=
  C10_meses_examenes 5 (by decide)

/-- C3: when `renovarPrestamo` succeeds it returns the state unchanged — the
recomputed due date is only logged, so the member collections, the active-loan
collection and every due date are exactly what they were. -/
theorem C3_renovar_solo_reporta (b : Biblioteca) (sid : Nat) (isbn : String)
    (now mes : Nat) (b2 : Biblioteca)
    (h : b.renovarPrestamo sid isbn now mes = .ok b2) :
    b2 = b ∧ b2.prestamosActivos = b.prestamosActivos ∧
    prestamosDeSocios b2 = prestamosDeSocios b := by
  have hb : b2 = b := by
    simp only [Biblioteca.renovarPrestamo] at h
    split at h
    · split at h
      · cases h
      · split at h
        · cases h
        · injection h with h2
          exact h2.symm
    · cases h
  exact ⟨hb, by rw [hb], by rw [hb]⟩

/-- Witness for C3: a concrete successful renewal under the Flexible policy
leaves the concrete state unchanged. -/
theorem C3_renovar_solo_reporta_witness :
    bC3w = bC3w ∧ bC3w.prestamosActivos = bC3w.prestamosActivos ∧
    prestamosDeSocios bC3w = prestamosDeSocios bC3w :=
  C3_renovar_solo_reporta bC3w 1 "i" 0 0 bC3w rfl

/-- C1 (code-bug evidence): `crearPrestamo` never consults the member-level
`Socio.puedeRetirar` or `getMaximoLibros`; under the default Flexible policy a
Visitor member successfully borrows an available book, ending with 1 active
loan against a maximum of 0 — even though the Visitante override of
`puedeRetirar` returns false for that very member and book. -/
theorem C1_visitante_retira_bug :
    ((((Biblioteca.inicial.agregarLibro "T" "A" "i").registrarSocio
        .visitante 1 "N" "A").crearPrestamo 1 "i" .regular 0).toOption.map
      (fun b2 => ((b2.buscarSocio 1).map Socio.librosEnPrestamo,
        (b2.buscarSocio 1).map Socio.getMaximoLibros)) =
      some (some 1, some (some 0))) ∧
    (SocioFactory.crearSocio .visitante 1 "N" "A").puedeRetirar libroW
      = false := by
  decide

/-- C2 (code-bug evidence): a Reference loan is indeed never successfully
created and the state (hence both loan collections) is left untouched — but
not by the designed NotWithdrawable check. On the Reference path the guard
evaluates `instanceof` on the undefined `PrestamoReferencia` property of a
dynamic-import Promise, so once the earlier checks pass the request aborts
with a TypeError, and the constantly-false `PrestamoReferencia.puedeRetirar`
(last conjunct) is never consulted. -/
theorem C2_referencia_type_error :
    (∀ (b : Biblioteca) (sid : Nat) (isbn : String) (now : Nat),
      (Biblioteca.crearPrestamo b sid isbn .referencia now).isOk = false) ∧
    (∀ (b : Biblioteca) (sid : Nat) (isbn : String) (now : Nat),
      aplicarOp b (.crearPrestamo sid isbn .referencia now) = b) ∧
    Biblioteca.crearPrestamo
      ((Biblioteca.inicial.agregarLibro "T" "A" "i").registrarSocio
        .regular 1 "N" "A") 1 "i" .referencia 0 = .error .typeError ∧
    Prestamo.puedeRetirar
      (PrestamoFactory.crearPrestamo .referencia libroW 1 0 0) = false := by
  have hnotok : ∀ (b : Biblioteca) (sid : Nat) (isbn : String) (now : Nat),
      (Biblioteca.crearPrestamo b sid isbn .referencia now).isOk = false := by
    intro b sid isbn now
    simp only [Biblioteca.crearPrestamo]
    split
    · split
      · rfl
      · split
        · rfl
        · rfl
    · rfl
  refine ⟨hnotok, ?_, by decide, rfl⟩
  intro b sid isbn now
  simp only [aplicarOp]
  split
  · rename_i b2 hok
    have hco := hnotok b sid isbn now
    rw [hok] at hco
    exact Bool.noConfusion hco
  · rfl

/-- C4 (counterexample to the original claim): in the scenario with one
overdue Regular loan, the Strict policy denies the second request and the
Flexible policy allows it, but the resulting loan is NOT created with the
halved 7-day duration: its due date is the fixed 14 days of the Regular
variant past the request time. -/
theorem C4_duracion_contraejemplo :
    ((bC4.cambiarPolitica .estricta).crearPrestamo 1 "i2" .regular
        (20 * msPorDia) = .error .politicaNoPermite) ∧
    (((bC4.cambiarPolitica .flexible).crearPrestamo 1 "i2" .regular
        (20 * msPorDia)).toOption.map
      (fun b2 => (b2.prestamosActivos.map Prestamo.fechaVencimiento).getLast?)
      = some (some (20 * msPorDia + 14 * msPorDia))) ∧
    ¬ (20 * msPorDia + 14 * msPorDia = 20 * msPorDia + 7 * msPorDia) := by
  decide

/-- C4 as amended: with a member holding an overdue loan and an available
book, the Strict policy makes `crearPrestamo` fail with PolicyDenied and the
Flexible policy makes the identical request succeed; the Flexible policy
duration for the base 14 days is indeed the halved 7, but `crearPrestamo`
never applies it — the created Regular loan is due the fixed 14 days out. -/
theorem C4_estricta_vs_flexible (b : Biblioteca) (sid : Nat) (isbn : String)
    (now : Nat) (socio : Socio) (libro : Libro)
    (hs : b.buscarSocio sid = some socio)
    (hl : b.buscarLibro isbn = some libro)
    (hav : b.estaLibroPrestado libro = false)
    (hven : socio.tieneLibrosVencidos now = true) :
    ((b.cambiarPolitica .estricta).crearPrestamo sid isbn .regular now =
      .error .politicaNoPermite) ∧
    ((b.cambiarPolitica .flexible).crearPrestamo sid isbn .regular now =
      .ok { b with
        politicaActual := .flexible,
        prestamosActivos := b.prestamosActivos ++
          [PrestamoFactory.crearPrestamo .regular libro sid now b.nextPid],
        socios := actualizarPrimerSocio b.socios sid
          (fun s => s.agregarPrestamo
            (PrestamoFactory.crearPrestamo .regular libro sid now b.nextPid)),
        nextPid := b.nextPid + 1 }) ∧
    (PrestamoFactory.crearPrestamo .regular libro sid now
      b.nextPid).fechaVencimiento = now + 14 * msPorDia ∧
    TipoPolitica.calcularDuracion .flexible socio 14 now 0 = 7 := by
  have e1 : ∀ t, (b.cambiarPolitica t).buscarSocio sid = some socio :=
    fun t => hs
  have e2 : ∀ t, (b.cambiarPolitica t).buscarLibro isbn = some libro :=
    fun t => hl
  have e3 : ∀ t, (b.cambiarPolitica t).estaLibroPrestado libro = false :=
    fun t => hav
  have e4 : ∀ t, (b.cambiarPolitica t).politicaActual = t := fun t => rfl
  have e5 : ∀ t, (b.cambiarPolitica t).nextPid = b.nextPid := fun t => rfl
  have e6 : ∀ t, (b.cambiarPolitica t).socios = b.socios := fun t => rfl
  have e7 : ∀ t, (b.cambiarPolitica t).prestamosActivos = b.prestamosActivos :=
    fun t => rfl
  refine ⟨?_, ?_, ?_, ?_⟩
  · simp only [Biblioteca.crearPrestamo, e1, e2, e3, e4, e5, e6, e7,
      TipoPolitica.puedeRetirar, hven, Bool.not_true, Bool.false_eq_true,
      if_false, Bool.not_false, if_true]
  · simp only [Biblioteca.crearPrestamo, e1, e2, e3, e4, e5, e6, e7,
      TipoPolitica.puedeRetirar, Bool.not_true, Bool.false_eq_true, if_false]
    simp [Biblioteca.cambiarPolitica, Prestamo.puedeRetirar,
      PrestamoFactory.crearPrestamo]
  · simp [PrestamoFactory.crearPrestamo, calcularVencimiento,
      TipoPrestamo.duracionDias]
  · simp [TipoPolitica.calcularDuracion, hven]

/-- Witness for C4 as amended, at the concrete scenario state. -/
theorem C4_estricta_vs_flexible_witness :
    (PrestamoFactory.crearPrestamo .regular libroC4b 1 (20 * msPorDia)
      bC4.nextPid).fechaVencimiento = 20 * msPorDia + 14 * msPorDia ∧
    TipoPolitica.calcularDuracion .flexible socioC4 14 (20 * msPorDia) 0
      = 7 :=
  (C4_estricta_vs_flexible bC4 1 "i2" (20 * msPorDia) socioC4 libroC4b
    rfl rfl rfl rfl).2.2

/-- C9: the aggregator is a homomorphism over the registered-system list, a
system whose `buscarPor` throws contributes nothing without aborting the
others, and a system whose `buscarPor` succeeds contributes exactly its
results, each tagged with its coarse type label and its source-system name. -/
theorem C9_buscarEnTodos_resiliente (pre post : BuscadorUniversal)
    (nombre : String) (sis : ISistema) (criterio : String) :
    (buscarEnTodos (pre ++ post) criterio =
      buscarEnTodos pre criterio ++ buscarEnTodos post criterio) ∧
    (∀ e, sis criterio = .error e →
      buscarEnTodos (pre ++ (nombre, sis) :: post) criterio =
        buscarEnTodos pre criterio ++ buscarEnTodos post criterio) ∧
    (∀ rs, sis criterio = .ok rs →
      buscarEnTodos (pre ++ (nombre, sis) :: post) criterio =
        buscarEnTodos pre criterio ++
          rs.map (fun r =>
            { tipo := obtenerTipoResultado r, resultado := r,
              fuente := nombre }) ++
          buscarEnTodos post criterio) := by
  refine ⟨?_, fun e he => ?_, fun rs hrs => ?_⟩
  · simp [buscarEnTodos]
  · simp [buscarEnTodos, he]
  · simp [buscarEnTodos, hrs, etiquetar]

/-- Witness for C9: with a throwing collaborator registered between two
working ones, the aggregation equals the two working aggregations. -/
theorem C9_buscarEnTodos_resiliente_witness :
    buscarEnTodos [("Catálogo Biblioteca", sisCatalogoW),
      ("Archivo Histórico", sisFallaW),
      ("Base de Conocimiento", sisBaseW)] "Tolkien" =
      buscarEnTodos [("Catálogo Biblioteca", sisCatalogoW)] "Tolkien" ++
      buscarEnTodos [("Base de Conocimiento", sisBaseW)] "Tolkien" :=
  (C9_buscarEnTodos_resiliente [("Catálogo Biblioteca", sisCatalogoW)]
    [("Base de Conocimiento", sisBaseW)] "Archivo Histórico" sisFallaW
    "Tolkien").2.1 "falla" rfl

/-- Inversion of a successful `crearPrestamo`: the checks passed and the
state gained the freshly constructed loan in both collections. -/
theorem crearPrestamo_ok_inv {b : Biblioteca} {sid : Nat} {isbn : String}
    {tp : TipoPrestamo} {now : Nat} {b2 : Biblioteca}
    (h : b.crearPrestamo sid isbn tp now = .ok b2) :
    ∃ socio libro, b.buscarSocio sid = some socio ∧
      b.buscarLibro isbn = some libro ∧
      b.estaLibroPrestado libro = false ∧
      b.politicaActual.puedeRetirar socio libro now = true ∧
      b2 = { b with
        prestamosActivos := b.prestamosActivos ++
          [PrestamoFactory.crearPrestamo tp libro sid now b.nextPid],
        socios := actualizarPrimerSocio b.socios sid
          (fun s => s.agregarPrestamo
            (PrestamoFactory.crearPrestamo tp libro sid now b.nextPid)),
        nextPid := b.nextPid + 1 } := by
  simp only [Biblioteca.crearPrestamo] at h
  split at h
  · rename_i socioV libroV hs hl
    split at h
    · cases h
    · rename_i hav
      split at h
      · cases h
      · rename_i hpol
        split at h
        · cases h
        · injection h with hb2
          exact ⟨socioV, libroV, hs, hl, by simpa using hav,
            by simpa using hpol, hb2.symm⟩
  · cases h

/-- The Unavailable error of `crearPrestamo` happens only when the resolved
book is referenced by some active loan. -/
theorem crearPrestamo_no_disponible_inv {b : Biblioteca} {sid : Nat}
    {isbn : String} {tp : TipoPrestamo} {now : Nat}
    (h : b.crearPrestamo sid isbn tp now = .error .libroNoDisponible) :
    ∃ libro, b.buscarLibro isbn = some libro ∧
      b.estaLibroPrestado libro = true := by
  simp only [Biblioteca.crearPrestamo] at h
  split at h
  · rename_i socioV libroV hs hl
    split at h
    · rename_i hav
      exact ⟨libroV, hl, by simpa using hav⟩
    · split at h
      · simp at h
      · split at h
        · simp at h
        · cases h
  · simp at h

/-- Inversion of a successful `devolverLibro`: the loan found in the member
collection is removed from it and from the active-loan collection. -/
theorem devolverLibro_ok_inv {b : Biblioteca} {sid : Nat} {isbn : String}
    {now : Nat} {b2 : Biblioteca}
    (h : b.devolverLibro sid isbn now = .ok b2) :
    ∃ socio libro prestamo, b.buscarSocio sid = some socio ∧
      b.buscarLibro isbn = some libro ∧
      socio.tienePrestadoLibro libro = some prestamo ∧
      b2 = { b with
        socios := actualizarPrimerSocio b.socios sid
          (fun s => s.removerPrestamo prestamo),
        prestamosActivos := b.prestamosActivos.eraseP
          (fun q => q.pid == prestamo.pid) } := by
  simp only [Biblioteca.devolverLibro] at h
  split at h
  · rename_i socioV libroV hs hl
    split at h
    · cases h
    · rename_i prestamoV hp
      injection h with hb2
      exact ⟨socioV, libroV, prestamoV, hs, hl, hp, hb2.symm⟩
  · cases h

/-- A successful `renovarPrestamo` returns the state unchanged. -/
theorem renovar_ok_eq {b b2 : Biblioteca} {sid : Nat} {isbn : String}
    {now mes : Nat} (h : b.renovarPrestamo sid isbn now mes = .ok b2) :
    b2 = b := by
  simp only [Biblioteca.renovarPrestamo] at h
  split at h
  · split at h
    · cases h
    · split at h
      · cases h
      · injection h with h2
        exact h2.symm
  · cases h

/-- `crearPrestamo` preserves the synchronization invariant. -/
theorem invariante_crearPrestamo {b b2 : Biblioteca} {sid : Nat}
    {isbn : String} {tp : TipoPrestamo} {now : Nat}
    (hInv : InvarianteSync b)
    (h : b.crearPrestamo sid isbn tp now = .ok b2) : InvarianteSync b2 := by
  obtain ⟨hnd, hperm, hbound⟩ := hInv
  obtain ⟨socio, libro, hs, hl, hav, hpol, hb2⟩ := crearPrestamo_ok_inv h
  subst hb2
  refine ⟨?_, ?_, ?_⟩
  · rw [show ({ b with
        prestamosActivos := b.prestamosActivos ++
          [PrestamoFactory.crearPrestamo tp libro sid now b.nextPid],
        socios := actualizarPrimerSocio b.socios sid
          (fun s => s.agregarPrestamo
            (PrestamoFactory.crearPrestamo tp libro sid now b.nextPid)),
        nextPid := b.nextPid + 1 } : Biblioteca).prestamosActivos =
      b.prestamosActivos ++
        [PrestamoFactory.crearPrestamo tp libro sid now b.nextPid] from rfl]
    rw [List.map_append, List.nodup_append]
    refine ⟨hnd, by simp, ?_⟩
    intro a ha hb
    simp only [List.map_cons, List.map_nil, List.mem_singleton] at hb
    obtain ⟨q, hq, hqa⟩ := List.mem_map.mp ha
    have hlt := hbound q hq
    have hpid : (PrestamoFactory.crearPrestamo tp libro sid now
      b.nextPid).pid = b.nextPid := rfl
    omega
  · have hfind : (b.socios.find? (fun s => s.id == sid)).isSome := by
      have hsf : b.socios.find? (fun s => s.id == sid) = some socio := hs
      rw [hsf]
      rfl
    exact (flatMap_actualizar_agregar _ _ _ hfind).trans
      ((hperm.cons _).trans (List.perm_append_singleton _ _).symm)
  · intro q hq
    simp only [List.mem_append, List.mem_singleton] at hq
    rcases hq with hq | rfl
    · exact Nat.lt_succ_of_lt (hbound q hq)
    · exact Nat.lt_succ_self _

/-- `devolverLibro` preserves the synchronization invariant. -/
theorem invariante_devolverLibro {b b2 : Biblioteca} {sid : Nat}
    {isbn : String} {now : Nat}
    (hInv : InvarianteSync b)
    (h : b.devolverLibro sid isbn now = .ok b2) : InvarianteSync b2 := by
  obtain ⟨hnd, hperm, hbound⟩ := hInv
  obtain ⟨socio, libro, prestamo, hs, hl, hp, hb2⟩ := devolverLibro_ok_inv h
  subst hb2
  have hsf : b.socios.find? (fun s => s.id == sid) = some socio := hs
  have hpmem : prestamo ∈ socio.prestamos := List.mem_of_find?_eq_some hp
  have hndS : ((prestamosDeSocios b).map Prestamo.pid).Nodup :=
    ((hperm.map Prestamo.pid).nodup_iff).mpr hnd
  have hflat := flatMap_actualizar_remover b.socios sid prestamo socio hsf
    ⟨prestamo, hpmem, rfl⟩ hndS
  refine ⟨?_, ?_, ?_⟩
  · exact List.Nodup.sublist
      ((List.eraseP_sublist _).map Prestamo.pid) hnd
  · show ((actualizarPrimerSocio b.socios sid
      (fun s => s.removerPrestamo prestamo)).flatMap Socio.prestamos).Perm _
    rw [hflat]
    apply permErasePUnico _ hperm
    intro a ha c hc hPa hPc
    have ha2 : a.pid = prestamo.pid := by simpa using hPa
    have hc2 : c.pid = prestamo.pid := by simpa using hPc
    exact List.inj_on_of_nodup_map hndS ha hc (by omega)
  · intro q hq
    exact hbound q (List.mem_of_mem_eraseP hq)

/-- Every operation preserves the synchronization invariant. -/
theorem invariante_aplicarOp (b : Biblioteca) (op : Op)
    (hInv : InvarianteSync b) : InvarianteSync (aplicarOp b op) := by
  obtain ⟨hnd, hperm, hbound⟩ := hInv
  cases op with
  | agregarLibro t a i => exact ⟨hnd, hperm, hbound⟩
  | registrarSocio tp id n a =>
    refine ⟨hnd, ?_, hbound⟩
    show ((b.socios ++ [SocioFactory.crearSocio tp id n a]).flatMap
      Socio.prestamos).Perm b.prestamosActivos
    simp only [List.flatMap_append, List.flatMap_cons, List.flatMap_nil,
      SocioFactory.crearSocio, List.append_nil]
    exact hperm
  | cambiarPolitica t => exact ⟨hnd, hperm, hbound⟩
  | crearPrestamo sid isbn tp now =>
    simp only [aplicarOp]
    split
    · rename_i b2 hok
      exact invariante_crearPrestamo ⟨hnd, hperm, hbound⟩ hok
    · exact ⟨hnd, hperm, hbound⟩
  | devolverLibro sid isbn now =>
    simp only [aplicarOp]
    split
    · rename_i b2 hok
      exact invariante_devolverLibro ⟨hnd, hperm, hbound⟩ hok
    · exact ⟨hnd, hperm, hbound⟩
  | renovarPrestamo sid isbn now mes =>
    simp only [aplicarOp]
    split
    · rename_i b2 hok
      rw [renovar_ok_eq hok]
      exact ⟨hnd, hperm, hbound⟩
    · exact ⟨hnd, hperm, hbound⟩

/-- The freshly constructed library satisfies the invariant. -/
theorem invariante_inicial : InvarianteSync Biblioteca.inicial := by
  refine ⟨by simp [Biblioteca.inicial], ?_, by simp [Biblioteca.inicial]⟩
  simp [prestamosDeSocios, Biblioteca.inicial]

/-- The invariant holds in every reachable state. -/
theorem invariante_ejecutar (ops : List Op) : InvarianteSync (ejecutar ops) := by
  suffices h : ∀ b, InvarianteSync b → InvarianteSync (ops.foldl aplicarOp b) by
    exact h _ invariante_inicial
  induction ops with
  | nil => exact fun b hb => hb
  | cons op rest ih => exact fun b hb => ih _ (invariante_aplicarOp b op hb)
/-- C6: in every state reachable from the freshly constructed library a loan
is held by some member exactly when it is in the library-wide active-loan
collection; an error from `crearPrestamo` or `devolverLibro` leaves the state
untouched, and a success performs the two paired mutations together: creation
appends the same loan to both collections, return removes the same loan from
both. -/
theorem C6_colecciones_sincronizadas (ops : List Op) :
    (∀ p, p ∈ prestamosDeSocios (ejecutar ops) ↔
      p ∈ (ejecutar ops).prestamosActivos) ∧
    (∀ b sid isbn tp now e,
      Biblioteca.crearPrestamo b sid isbn tp now = .error e →
      aplicarOp b (.crearPrestamo sid isbn tp now) = b) ∧
    (∀ b sid isbn now e,
      Biblioteca.devolverLibro b sid isbn now = .error e →
      aplicarOp b (.devolverLibro sid isbn now) = b) ∧
    (∀ b b2 sid isbn tp now,
      Biblioteca.crearPrestamo b sid isbn tp now = .ok b2 →
      ∃ p : Prestamo, b2.prestamosActivos = b.prestamosActivos ++ [p] ∧
        (prestamosDeSocios b2).Perm (p :: prestamosDeSocios b)) ∧
    (∀ b b2 sid isbn now, InvarianteSync b →
      Biblioteca.devolverLibro b sid isbn now = .ok b2 →
      ∃ p : Prestamo, b2.prestamosActivos =
          b.prestamosActivos.eraseP (fun q => q.pid == p.pid) ∧
        prestamosDeSocios b2 =
          (prestamosDeSocios b).eraseP (fun q => q.pid == p.pid)) := by
  refine ⟨fun p => ((invariante_ejecutar ops).2.1).mem_iff, ?_, ?_, ?_, ?_⟩
  · intro b sid isbn tp now e h
    simp [aplicarOp, h]
  · intro b sid isbn now e h
    simp [aplicarOp, h]
  · intro b b2 sid isbn tp now h
    obtain ⟨socio, libro, hs, hl, hav, hpol, hb2⟩ := crearPrestamo_ok_inv h
    subst hb2
    refine ⟨PrestamoFactory.crearPrestamo tp libro sid now b.nextPid, rfl, ?_⟩
    have hfind : (b.socios.find? (fun s => s.id == sid)).isSome := by
      have hsf : b.socios.find? (fun s => s.id == sid) = some socio := hs
      rw [hsf]
      rfl
    exact flatMap_actualizar_agregar _ _ _ hfind
  · intro b b2 sid isbn now hInv h
    obtain ⟨hnd, hperm, hbound⟩ := hInv
    obtain ⟨socio, libro, prestamo, hs, hl, hp, hb2⟩ := devolverLibro_ok_inv h
    subst hb2
    have hsf : b.socios.find? (fun s => s.id == sid) = some socio := hs
    have hpmem : prestamo ∈ socio.prestamos := List.mem_of_find?_eq_some hp
    have hndS : ((prestamosDeSocios b).map Prestamo.pid).Nodup :=
      ((hperm.map Prestamo.pid).nodup_iff).mpr hnd
    exact ⟨prestamo, rfl,
      flatMap_actualizar_remover b.socios sid prestamo socio hsf
        ⟨prestamo, hpmem, rfl⟩ hndS⟩

/-- Witness for C6: the synchronization property at a concrete three-step run
and the untouched state after a concrete failing `crearPrestamo`. -/
theorem C6_colecciones_sincronizadas_witness :
    (prestamoW ∈ prestamosDeSocios (ejecutar [.agregarLibro "T" "A" "i",
        .registrarSocio .regular 1 "N" "A",
        .crearPrestamo 1 "i" .regular 0]) ↔
      prestamoW ∈ (ejecutar [.agregarLibro "T" "A" "i",
        .registrarSocio .regular 1 "N" "A",
        .crearPrestamo 1 "i" .regular 0]).prestamosActivos) ∧
    aplicarOp Biblioteca.inicial (.crearPrestamo 1 "i" .regular 0) =
      Biblioteca.inicial :=
  ⟨(C6_colecciones_sincronizadas [.agregarLibro "T" "A" "i",
      .registrarSocio .regular 1 "N" "A",
      .crearPrestamo 1 "i" .regular 0]).1 prestamoW,
    (C6_colecciones_sincronizadas []).2.1 Biblioteca.inicial 1 "i" .regular 0
      .socioOLibroNoEncontrado rfl⟩
/-- C5: starting from a state satisfying the synchronization invariant, a
successful `crearPrestamo(m, isbn, Regular)` followed by a successful
`devolverLibro(m, isbn)` leaves the created loan (the one with the fresh
identity `b.nextPid`) in neither the member collections nor the active-loan
collection, and a subsequent `crearPrestamo` for the same ISBN cannot fail
with the Unavailable error. -/
theorem C5_ida_y_vuelta (b : Biblioteca) (sid : Nat) (isbn : String)
    (now now2 : Nat) (b1 b2 : Biblioteca)
    (hInv : InvarianteSync b)
    (h1 : b.crearPrestamo sid isbn .regular now = .ok b1)
    (h2 : b1.devolverLibro sid isbn now2 = .ok b2) :
    (∀ q ∈ prestamosDeSocios b2, q.pid ≠ b.nextPid) ∧
    (∀ q ∈ b2.prestamosActivos, q.pid ≠ b.nextPid) ∧
    (∀ sid2 tp2 now3, b2.crearPrestamo sid2 isbn tp2 now3 ≠
      .error .libroNoDisponible) := by
  obtain ⟨hnd, hperm, hbound⟩ := hInv
  obtain ⟨socio, libro, hs, hl, hav, hpol, hb1⟩ := crearPrestamo_ok_inv h1
  subst hb1
  obtain ⟨socio1, libro1, prestamo1, hs1, hl1, hp1, hb2⟩ :=
    devolverLibro_ok_inv h2
  set p := PrestamoFactory.crearPrestamo .regular libro sid now b.nextPid
    with hpdef
  have hppid : p.pid = b.nextPid := rfl
  have hplibro : p.libro = libro := rfl
  have hsf : b.socios.find? (fun s => s.id == sid) = some socio := hs
  -- the member found after the creation is the updated member
  have hs1b : (actualizarPrimerSocio b.socios sid
      (fun s => s.agregarPrestamo p)).find? (fun s => s.id == sid)
      = some socio1 := hs1
  rw [find_actualizar b.socios sid (fun s => s.agregarPrestamo p)
      (fun s => rfl), hsf] at hs1b
  injection hs1b with hsocio1
  -- the book found after the creation is the same book
  have hl1b : b.buscarLibro isbn = some libro1 := hl1
  have hlibro : libro1 = libro := Option.some.inj (hl1b.symm.trans hl)
  rw [hlibro] at hp1
  -- no pre-existing loan held by the member references this book
  have hnone : ∀ q ∈ socio.prestamos, ¬((q.libro == libro) = true) := by
    intro q hq hqlib
    have hqm : q ∈ prestamosDeSocios b :=
      List.mem_flatMap.mpr ⟨socio, List.mem_of_find?_eq_some hsf, hq⟩
    have hqa : q ∈ b.prestamosActivos := hperm.mem_iff.mp hqm
    have hcontra : b.estaLibroPrestado libro = true := by
      simp only [Biblioteca.estaLibroPrestado]
      exact List.any_eq_true.mpr ⟨q, hqa, hqlib⟩
    rw [hav] at hcontra
    cases hcontra
  -- hence the loan found on return is the freshly created one
  have hp1b : (socio.prestamos ++ [p]).find? (fun q => q.libro == libro)
      = some prestamo1 := by
    rw [← hsocio1] at hp1
    exact hp1
  rw [List.find?_append, List.find?_eq_none.mpr hnone,
    List.find?_cons_of_pos (p := fun (q : Prestamo) => q.libro == libro) _
      (by simp [hplibro])] at hp1b
  have hprest : prestamo1 = p := by simpa using hp1b.symm
  subst hprest
  -- pid bounds for the pre-existing loans
  have hsb : ∀ q ∈ socio.prestamos, q.pid < b.nextPid := fun q hq =>
    hbound q (hperm.mem_iff.mp
      (List.mem_flatMap.mpr ⟨socio, List.mem_of_find?_eq_some hsf, hq⟩))
  have hnomatch : ∀ q ∈ b.prestamosActivos, ¬((q.pid == p.pid) = true) := by
    intro q hq hbeq
    have e1 : q.pid = p.pid := by simpa using hbeq
    have e2 := hbound q hq
    omega
  have hnomatch2 : ∀ q ∈ socio.prestamos, ¬((q.pid == p.pid) = true) := by
    intro q hq hbeq
    have e1 : q.pid = p.pid := by simpa using hbeq
    have e2 := hsb q hq
    omega
  -- the return undoes both collection updates
  have hact : (b.prestamosActivos ++ [p]).eraseP (fun q => q.pid == p.pid)
      = b.prestamosActivos := by
    rw [List.eraseP_append_right _ hnomatch,
      List.eraseP_cons_of_pos (by simp), List.append_nil]
  have hsoc : actualizarPrimerSocio (actualizarPrimerSocio b.socios sid
      (fun s => s.agregarPrestamo p)) sid (fun s => s.removerPrestamo p)
      = b.socios := by
    rw [actualizar_actualizar b.socios sid (fun s => s.agregarPrestamo p)
        (fun s => s.removerPrestamo p) (fun s => rfl)]
    apply actualizar_fijo _ _ _ socio hsf
    show Socio.removerPrestamo (socio.agregarPrestamo p) p = socio
    simp only [Socio.agregarPrestamo, Socio.removerPrestamo]
    rw [List.eraseP_append_right _ hnomatch2,
      List.eraseP_cons_of_pos (by simp), List.append_nil]
  have hb2act : b2.prestamosActivos = b.prestamosActivos := by
    rw [hb2]
    exact hact
  have hb2soc : b2.socios = b.socios := by
    rw [hb2]
    exact hsoc
  have hb2inv : b2.inventario = b.inventario := by
    rw [hb2]
  refine ⟨?_, ?_, ?_⟩
  · intro q hq
    have hqm : q ∈ prestamosDeSocios b := by
      simpa [prestamosDeSocios, hb2soc] using hq
    have := hbound q (hperm.mem_iff.mp hqm)
    omega
  · intro q hq
    rw [hb2act] at hq
    have := hbound q hq
    omega
  · intro sid2 tp2 now3 hcontra
    obtain ⟨libro2, hlib2, hpres⟩ := crearPrestamo_no_disponible_inv hcontra
    have hlib2b : b.buscarLibro isbn = some libro2 := by
      rw [← hlib2]
      simp [Biblioteca.buscarLibro, hb2inv]
    have hlibro2 : libro2 = libro := Option.some.inj (hlib2b.symm.trans hl)
    rw [hlibro2] at hpres
    have hcontra2 : b.estaLibroPrestado libro = true := by
      simpa [Biblioteca.estaLibroPrestado, hb2act] using hpres
    rw [hav] at hcontra2
    cases hcontra2

/-- Witness for C5: the concrete create-return round trip on the one-book
one-member library leaves the book borrowable: the follow-up request does not
fail with the Unavailable error. -/
theorem C5_ida_y_vuelta_witness :
    bC5c.crearPrestamo 1 "i" .regular 0 ≠ .error .libroNoDisponible :=
  (C5_ida_y_vuelta bC5a 1 "i" 0 0 bC5b bC5c (by decide) rfl rfl).2.2 1
    .regular 0
end Tarea2
